import Mathlib

/-!
Verification of the scrape-with-fallback caching engine of the Wegovy market-intelligence
dashboards (src/codes/analysis.py) and of the mock state-sales generator
(src/codes/sales.py).

Modelling conventions:
* Python dicts whose key sets are fixed by the code are structures with `Option` fields
  (`none` = key absent); the per-topic caches keyed by arbitrary strings are association
  lists with Python-dict lookup/assignment semantics.
* Python floats are modelled as rationals (`ℚ`). In the analysis-side claims every
  literal is an exact decimal and no arithmetic rounds. In the sales generator the
  concrete outputs do depend on binary64 arithmetic, so there every float operation is
  rounded to the nearest IEEE-754 binary64 value (`fl`, round to nearest, ties to even —
  doubles are rationals, so this is exact), and the random draws come from a bit-exact
  embedding of CPython's seeded MT19937 (`random.seed` / `random.random` /
  `random.uniform` of `_randommodule.c`).
* `datetime.now()` is a rational parameter `now` (seconds since an arbitrary epoch):
  `_is_cache_valid` compares `(now - last).total_seconds() / 60` against the TTL.
* The regex engine is modelled by the ordered list of its matches: the extraction loop of
  `scrape_gender_based_prevalence` consumes, for each of the four patterns in order, the
  tuples `re.findall` yields, each a (gender-group, numeric-group) pair of strings; the
  embedding takes that concatenated match list as input and runs the very same fold.
-/

set_option allowUnsafeReducibility true in
attribute [semireducible] Rat.mul Rat.add Rat.sub Rat.div Rat.inv Rat.neg Rat.ofScientific

namespace NovoDash

/-- One gender's sub-dictionary of `gender_analysis` (`male_obesity` / `female_obesity`):
the keys the code reads or writes, `none` meaning the key is absent. The age distribution
is the quadruple of the buckets 18-30, 31-45, 46-60, 60+. -/
structure SubRecord where
  prevalence : Option ℚ
  diabetes_comorbidity : Option ℚ
  hypertension_comorbidity : Option ℚ
  heart_disease_comorbidity : Option ℚ
  age_distribution : Option (ℚ × ℚ × ℚ × ℚ)
deriving DecidableEq, Repr

/-- The `gender_analysis` dictionary built by `scrape_gender_based_prevalence`. -/
structure GenderRecord where
  male_obesity : SubRecord
  female_obesity : SubRecord
  gender_comorbidities : List (String × ℚ)
  age_demographics : List (String × ℚ)
  clinical_insights : List String
deriving DecidableEq, Repr

/-- A sub-dictionary with no keys. -/
def emptySub : SubRecord :=
  { prevalence := none, diabetes_comorbidity := none, hypertension_comorbidity := none,
    heart_disease_comorbidity := none, age_distribution := none }

/-- The initial `gender_analysis` value (all five entries empty). -/
def emptyGender : GenderRecord :=
  { male_obesity := emptySub, female_obesity := emptySub, gender_comorbidities := [],
    age_demographics := [], clinical_insights := [] }

/-- Python truthiness of a dict: `not d` is true exactly when `d` has no keys. -/
def SubRecord.isEmptyDict (s : SubRecord) : Bool :=
  s.prevalence.isNone && s.diabetes_comorbidity.isNone &&
    s.hypertension_comorbidity.isNone && s.heart_disease_comorbidity.isNone &&
    s.age_distribution.isNone

/-- Every key the topic schema requires is present in the sub-dictionary. -/
def SubRecord.isFull (s : SubRecord) : Bool :=
  s.prevalence.isSome && s.diabetes_comorbidity.isSome &&
    s.hypertension_comorbidity.isSome && s.heart_disease_comorbidity.isSome &&
    s.age_distribution.isSome

/-- Every required field path of the gender schema is populated. -/
def isCompleteRecord (r : GenderRecord) : Bool :=
  r.male_obesity.isFull && r.female_obesity.isFull

/-- Splits a character list at every dot, like `str.split` on the separator. -/
def splitDot : List Char → List (List Char)
  | [] => [[]]
  | c :: rest =>
    let r := splitDot rest
    if c = '.' then [] :: r
    else (c :: r.headD []) :: r.tail

/-- Value of a decimal digit string. -/
def digitsVal (l : List Char) : ℕ :=
  l.foldl (fun a c => 10 * a + (c.toNat - 48)) 0

/-- Python `s.replace('.', '').isdigit()`: the guard the extractor puts before
`float(match[1])` — nonempty and all digits once the dots are removed. -/
def pyDigitGate (s : String) : Bool :=
  let ds := s.data.filter (fun c => c ≠ '.')
  ds ≠ [] && ds.all Char.isDigit

/-- Python `float(s)` on the strings the extractor feeds it, as a fallible parse:
`none` models `float` raising `ValueError` (captures with two dots, non-numeric text). -/
def pyFloat (s : String) : Option ℚ :=
  match splitDot s.data with
  | [a] => if a ≠ [] ∧ a.all Char.isDigit then some (digitsVal a) else none
  | [a, b] =>
      if (a ++ b) ≠ [] ∧ (a ++ b).all Char.isDigit then
        some ((digitsVal a : ℚ) + (digitsVal b : ℚ) / 10 ^ b.length)
      else none
  | _ => none

/-- Body of the extraction loop of `scrape_gender_based_prevalence` for one regex match
`m = (gender-group, numeric-group)`: parse the numeric group (falling back to
`float(match[0])` when the digit gate fails, as the source does), keep the value only if
`1 < rate < 50`, and assign it to the matching gender's `prevalence` key. -/
def applyMatch (r : GenderRecord) (m : String × String) : GenderRecord :=
  match (if pyDigitGate m.2 then pyFloat m.2 else pyFloat m.1) with
  | none => r
  | some rate =>
      if 1 < rate ∧ rate < 50 then
        if m.1 = "male" ∨ m.1 = "men" then
          { r with male_obesity := { r.male_obesity with prevalence := some rate } }
        else if m.1 = "female" ∨ m.1 = "women" then
          { r with female_obesity := { r.female_obesity with prevalence := some rate } }
        else r
      else r

/-- The extraction pass: fold the loop body over the ordered list of regex matches,
starting from the freshly initialised `gender_analysis`. -/
def extract (ms : List (String × String)) : GenderRecord :=
  ms.foldl applyMatch emptyGender

/-- The static male baseline the fallback branch installs. -/
def defaultMaleSub : SubRecord :=
  { prevalence := some 12.8, diabetes_comorbidity := some 18.5,
    hypertension_comorbidity := some 24.8, heart_disease_comorbidity := some 8.2,
    age_distribution := some (8.5, 16.2, 21.4, 18.9) }

/-- The static female baseline the fallback branch installs. -/
def defaultFemaleSub : SubRecord :=
  { prevalence := some 15.2, diabetes_comorbidity := some 16.8,
    hypertension_comorbidity := some 22.1, heart_disease_comorbidity := some 6.4,
    age_distribution := some (11.2, 19.8, 24.1, 16.3) }

/-- The `else` arm's per-key filling for `male_obesity`: each missing comorbidity or
age-distribution key gets its default; `prevalence` is not touched there. -/
def fillMale (s : SubRecord) : SubRecord :=
  { prevalence := s.prevalence,
    diabetes_comorbidity := some (s.diabetes_comorbidity.getD 18.5),
    hypertension_comorbidity := some (s.hypertension_comorbidity.getD 24.8),
    heart_disease_comorbidity := some (s.heart_disease_comorbidity.getD 8.2),
    age_distribution := some (s.age_distribution.getD (8.5, 16.2, 21.4, 18.9)) }

/-- The `else` arm's per-key filling for `female_obesity`. -/
def fillFemale (s : SubRecord) : SubRecord :=
  { prevalence := s.prevalence,
    diabetes_comorbidity := some (s.diabetes_comorbidity.getD 16.8),
    hypertension_comorbidity := some (s.hypertension_comorbidity.getD 22.1),
    heart_disease_comorbidity := some (s.heart_disease_comorbidity.getD 6.4),
    age_distribution := some (s.age_distribution.getD (11.2, 19.8, 24.1, 16.3)) }

/-- The fallback/merge step of `scrape_gender_based_prevalence`: when either gender's
dictionary is empty, BOTH are replaced wholesale by the static baselines; otherwise each
missing required key of each gender is filled with its default, keeping present values. -/
def complete (r : GenderRecord) : GenderRecord :=
  if r.male_obesity.isEmptyDict || r.female_obesity.isEmptyDict then
    { r with male_obesity := defaultMaleSub, female_obesity := defaultFemaleSub }
  else
    { r with male_obesity := fillMale r.male_obesity,
             female_obesity := fillFemale r.female_obesity }

/-- Outcome of `self.session.get(who_url, timeout=15)` followed by the parse: either a
status code together with the ordered regex matches the page text yields, or a raised
exception (timeout, connection error, ...), which the source catches. -/
inductive FetchOutcome where
  | success (status : ℕ) (ms : List (String × String))
  | failure (message : String)
deriving DecidableEq, Repr

/-- The refresh path of `scrape_gender_based_prevalence` (everything after the cache
check): extraction runs only on a 200 response, any raised exception leaves the record
empty, and the fallback/merge step always runs afterwards. -/
def refresh_gender (f : FetchOutcome) : GenderRecord :=
  complete
    (match f with
     | .success status ms => if status = 200 then extract ms else emptyGender
     | .failure _ => emptyGender)

/-- Lookup in a Python dict modelled as an association list (latest assignment first). -/
def dictGet {α : Type} (d : List (String × α)) (k : String) : Option α :=
  (d.find? (fun p => p.1 == k)).map (fun p => p.2)

/-- Python dict assignment `d[k] = v`: later assignments shadow earlier ones. -/
def dictSet {α : Type} (d : List (String × α)) (k : String) (v : α) : List (String × α) :=
  (k, v) :: d

/-- The two session-state dictionaries backing the cache:
`st.session_state.live_scraped_cache` and `st.session_state.scrape_timestamps`
(timestamps in seconds). -/
structure CacheState where
  live_scraped_cache : List (String × GenderRecord)
  scrape_timestamps : List (String × ℚ)
deriving DecidableEq, Repr

/-- The session state right after initialisation (both dictionaries empty). -/
def emptyCache : CacheState :=
  { live_scraped_cache := [], scrape_timestamps := [] }

/-- `_is_cache_valid`: the key has a timestamp and
`(datetime.now() - last_scrape).total_seconds() / 60 < max_age_minutes`. -/
def is_cache_valid (s : CacheState) (now : ℚ) (key : String) (maxAgeMinutes : ℚ) : Bool :=
  match dictGet s.scrape_timestamps key with
  | none => false
  | some lastScrape => decide ((now - lastScrape) / 60 < maxAgeMinutes)

/-- `_cache_data`: store the record and stamp the key with the current time. -/
def cache_data (s : CacheState) (now : ℚ) (key : String) (data : GenderRecord) : CacheState :=
  { live_scraped_cache := dictSet s.live_scraped_cache key data,
    scrape_timestamps := dictSet s.scrape_timestamps key now }

/-- The cache skeleton every `scrape_*` method instantiates (key and TTL fixed per
method): on a valid entry return the stored record untouched; otherwise produce the
fresh record, store it stamped `now`, and return it. The third component counts how many
times the refresh body ran (0 on a hit, 1 on a miss); the first is `none` exactly when
the hit branch would raise `KeyError` on a missing cache entry. -/
def get_or_refresh (s : CacheState) (now : ℚ) (key : String) (ttl : ℚ)
    (freshRecord : GenderRecord) : Option GenderRecord × CacheState × ℕ :=
  if is_cache_valid s now key ttl then (dictGet s.live_scraped_cache key, s, 0)
  else (some freshRecord, cache_data s now key freshRecord, 1)

/-- `scrape_gender_based_prevalence`: key `gender_based_analysis`, TTL 60 minutes,
refresh body `refresh_gender`. -/
def scrape_gender_based_prevalence (s : CacheState) (now : ℚ) (f : FetchOutcome) :
    Option GenderRecord × CacheState × ℕ :=
  get_or_refresh s now "gender_based_analysis" 60 (refresh_gender f)

/-! The mock state-sales generator of src/codes/sales.py. -/

/-- Python `round` on a float: round half to even, to an integer. -/
def pyRound (q : ℚ) : ℤ :=
  let n := q.floor
  let frac := q - n
  if frac < 1 / 2 then n
  else if 1 / 2 < frac then n + 1
  else if n % 2 = 0 then n else n + 1

/-- Python `int` on a float: truncation toward zero. -/
def pyTrunc (q : ℚ) : ℤ :=
  if q < 0 then -((-q).floor) else q.floor

/-- Binary exponent search: for positive `q` returns `e` with `2 ^ e ≤ q < 2 ^ (e + 1)`,
halving or doubling until the value lands in [1, 2); the fuel bounds the recursion and is
ample for every magnitude the sales pipeline produces. -/
def floatExpAux : ℕ → ℚ → ℤ → ℤ
  | 0, _, e => e
  | f + 1, q, e =>
      if 2 ≤ q then floatExpAux f (q / 2) (e + 1)
      else if q < 1 then floatExpAux f (q * 2) (e - 1)
      else e

/-- The IEEE-754 binary exponent of a positive rational. -/
def floatExp (q : ℚ) : ℤ := floatExpAux 1200 q 0

/-- Rounds a positive rational to the nearest IEEE-754 binary64 value (round to nearest,
ties to even): scale into the 53-bit binade, round the mantissa half-to-even, scale back.
All values the generator manipulates are normal doubles, far from overflow/underflow. -/
def flPos (q : ℚ) : ℚ :=
  let e := floatExp q
  if 0 ≤ 52 - e then
    ((pyRound (q * 2 ^ (52 - e).toNat) : ℤ) : ℚ) / 2 ^ (52 - e).toNat
  else
    ((pyRound (q / 2 ^ (e - 52).toNat) : ℤ) : ℚ) * 2 ^ (e - 52).toNat

/-- One CPython float operation's result: the exact rational rounded to binary64. Every
arithmetic step of sales.py (literal, `+`, `-`, `*`, `/`) passes through this. -/
def fl (q : ℚ) : ℚ :=
  if q < 0 then -flPos (-q) else if q = 0 then 0 else flPos q

/-! CPython's `random` module: the MT19937 generator of `_randommodule.c`, seeded the way
`random.seed(42)` seeds it (`init_by_array` with the single 32-bit key word [42]; the
embedding covers seeds below 2^32, which is all the program uses). The state is the
624-word vector; all arithmetic is 32-bit, and the bit-level steps below follow the
reference implementation line by line. -/

/-- 32-bit truncation, the `& 0xffffffff` of the reference implementation. -/
def u32 (n : ℕ) : ℕ := n % 4294967296

/-- Identity cons for 32-bit words (both branches are the same list). The vacuous test
forces the word to a numeral when a consumer first touches the list cell, so that even a
consumer that jumps to the end of the 624-word vector evaluates the words front to back,
each with its predecessor already reduced — keeping proof-checking recursion shallow. -/
def strictCons (y : ℕ) (rest : List ℕ) : List ℕ :=
  if y % 4294967296 = y then y :: rest else y :: rest

/-- The tail of `init_genrand`: `mt[i] = 1812433253 * (mt[i-1] ^ (mt[i-1] >> 30)) + i`. -/
def initGenrandAux (prev i : ℕ) : ℕ → List ℕ
  | 0 => []
  | f + 1 =>
      let x := u32 (1812433253 * (prev ^^^ (prev >>> 30)) + i)
      strictCons x (initGenrandAux x (i + 1) f)

/-- `init_genrand(s)`: the 624-word state before key mixing. -/
def init_genrand (s : ℕ) : List ℕ :=
  u32 s :: initGenrandAux (u32 s) 1 623

/-- First key-mixing step of `init_by_array` with the one-word key [seed] (so
`init_key[j] + j = seed` at every step):
`mt[i] = (mt[i] ^ ((mt[i-1] ^ (mt[i-1] >> 30)) * 1664525)) + seed`. -/
def mixStep1 (seed prev x : ℕ) : ℕ :=
  u32 ((x ^^^ u32 ((prev ^^^ (prev >>> 30)) * 1664525)) + seed)

/-- Sequential scan of `mixStep1` over consecutive state words. -/
def scanMix1 (seed prev : ℕ) : List ℕ → List ℕ
  | [] => []
  | x :: rest =>
      let y := mixStep1 seed prev x
      strictCons y (scanMix1 seed y rest)

/-- First `init_by_array` loop (k = 624 steps from i = 1): indices 1..623 in order, then
the wrap `mt[0] = mt[623]; i = 1` and one further step at i = 1. -/
def mixPass1 (seed : ℕ) (mt : List ℕ) : List ℕ :=
  match mt with
  | [] => []
  | m0 :: tail =>
      let t := scanMix1 seed m0 tail
      let newHead := t.getLastD 0
      match t with
      | [] => [newHead]
      | t1 :: trest => newHead :: mixStep1 seed newHead t1 :: trest

/-- Second key-mixing step:
`mt[i] = (mt[i] ^ ((mt[i-1] ^ (mt[i-1] >> 30)) * 1566083941)) - i`, subtraction mod 2^32
(i stays within 1..623 here). -/
def mixStep2 (i prev x : ℕ) : ℕ :=
  u32 ((x ^^^ u32 ((prev ^^^ (prev >>> 30)) * 1566083941)) + (4294967296 - i))

/-- Sequential scan of `mixStep2`, carrying the running index. -/
def scanMix2 (i prev : ℕ) : List ℕ → List ℕ
  | [] => []
  | x :: rest =>
      let y := mixStep2 i prev x
      strictCons y (scanMix2 (i + 1) y rest)

/-- Second `init_by_array` loop (k = 623 steps from i = 2): indices 2..623, the wrap
`mt[0] = mt[623]; i = 1`, one further step at i = 1, then `mt[0] = 0x80000000`. -/
def mixPass2 (mt : List ℕ) : List ℕ :=
  match mt with
  | _l0 :: l1 :: rest =>
      let u := scanMix2 2 l1 rest
      let wrapHead := u.getLastD 0
      2147483648 :: mixStep2 1 wrapHead l1 :: u
  | l => l

/-- The 624-word state `random.seed(seed)` leaves behind:
`init_by_array([seed])` = `init_genrand(19650218)` followed by the two mixing passes. -/
def randomSeedState (seed : ℕ) : List ℕ :=
  mixPass2 (mixPass1 seed (init_genrand 19650218))

/-- One word of the twist: `y = (mt[kk] & 0x80000000) | (mt[kk+1] & 0x7fffffff)`;
the new word is `src ^ (y >> 1) ^ (y odd ? 0x9908b0df : 0)`, `src` being `mt[kk+397]`
read from the partly rebuilt vector. -/
def twistStep (src x x1 : ℕ) : ℕ :=
  let y := (x &&& 2147483648) ||| (x1 &&& 2147483647)
  src ^^^ (y >>> 1) ^^^ (if y % 2 = 1 then 2567483615 else 0)

/-- Twist phase for kk = 0..226, where `mt[kk+397]` is still an old word: a three-way
zip of the old vector with its shifts by 1 and by 397. -/
def twistZip : List ℕ → List ℕ → List ℕ → List ℕ
  | x :: xs, x1 :: x1s, z :: zs => strictCons (twistStep z x x1) (twistZip xs x1s zs)
  | _, _, _ => []

/-- Twist phase for kk = 227..622, where `mt[kk-227]` is a NEW word produced 227 steps
earlier: the freshly built words are replayed through a two-list queue lagging 227
behind the output. -/
def twistB : List (ℕ × ℕ) → List ℕ → List ℕ → List ℕ
  | [], _, _ => []
  | (x, x1) :: rest, qf, qb =>
      match qf with
      | s :: qfRest =>
          let v := twistStep s x x1
          strictCons v (twistB rest qfRest (v :: qb))
      | [] =>
          match qb.reverse with
          | s :: qfRest =>
              let v := twistStep s x x1
              strictCons v (twistB rest qfRest [v])
          | [] => []

/-- The full MT19937 twist of the 624-word state (`genrand_uint32`'s regeneration step),
ending with the special kk = 623 word built from old `mt[623]`, new `mt[0]` and new
`mt[396]`. -/
def twist (mt : List ℕ) : List ℕ :=
  let a := twistZip mt (mt.drop 1) (mt.drop 397)
  let b := twistB (List.zip (mt.drop 227) (mt.drop 228)) a []
  let lastVal := twistStep ((a ++ b).getD 396 0) (mt.getLastD 0) (a.headD 0)
  a ++ b ++ [lastVal]

/-- MT19937 output tempering. -/
def temper (y0 : ℕ) : ℕ :=
  let y1 := y0 ^^^ (y0 >>> 11)
  let y2 := y1 ^^^ ((y1 <<< 7) &&& 2636928640)
  let y3 := y2 ^^^ ((y2 <<< 15) &&& 4022730752)
  y3 ^^^ (y3 >>> 18)

/-- The module-level generator state: the 624-word vector plus the output index. -/
structure PyRandom where
  mt : List ℕ
  mti : ℕ
deriving DecidableEq, Repr

/-- `random.seed(n)`: seed the state and set the index to 624, forcing a twist on the
first draw — exactly what CPython's `random_seed` leaves behind. -/
def randomSeed (n : ℕ) : PyRandom := ⟨randomSeedState n, 624⟩

/-- `genrand_uint32`: twist when the vector is exhausted, then temper the next word. -/
def genrand (g : PyRandom) : ℕ × PyRandom :=
  if g.mti ≥ 624 then
    let m := twist g.mt
    (temper (m.headD 0), ⟨m, 1⟩)
  else
    (temper (g.mt.getD g.mti 0), ⟨g.mt, g.mti + 1⟩)

/-- `random.random()` (`random_random`, i.e. `genrand_res53`): two words give
`((a >> 5) * 2^26 + (b >> 6)) / 2^53`, a dyadic rational that is an exact double. -/
def randomUnit (g : PyRandom) : ℚ × PyRandom :=
  let (a, g1) := genrand g
  let (b, g2) := genrand g1
  ((((a >>> 5) * 67108864 + (b >>> 6) : ℕ) : ℚ) / 9007199254740992, g2)

/-- `random.uniform(a, b)` = `a + (b - a) * random()`, each operation in binary64: the
literal arguments are first rounded to their double values, then every intermediate
result is rounded. -/
def uniform (g : PyRandom) (a b : ℚ) : ℚ × PyRandom :=
  let (x, g1) := randomUnit g
  (fl (fl a + fl (fl (fl b - fl a) * x)), g1)

/-- Draw `n` uniform values in [a, b], like the weights list comprehension. -/
def drawList (g : PyRandom) (a b : ℚ) : ℕ → List ℚ × PyRandom
  | 0 => ([], g)
  | n + 1 =>
      let (x, g1) := uniform g a b
      let (rest, g2) := drawList g1 a b n
      (x :: rest, g2)

/-- The 20 states of `INDIA_STATES`. -/
def INDIA_STATES : List String :=
  ["Maharashtra", "Karnataka", "Tamil Nadu", "Uttar Pradesh", "Gujarat", "Delhi",
   "Rajasthan", "West Bengal", "Telangana", "Andhra Pradesh", "Kerala", "Bihar",
   "Punjab", "Haryana", "Chhattisgarh", "Odisha", "Jharkhand", "Assam", "Goa", "Manipur"]

/-- The hardcoded totals of `base_totals`. -/
def base_totals : List (String × ℕ) :=
  [("Rybelsus", 412000000), ("Mounjaro", 98000000), ("Wegovy", 7000000)]

/-- One generated row of the mock sales table. -/
structure SalesRow where
  state : String
  drug : String
  value_inr : ℤ
  units : ℤ
  period : String
deriving DecidableEq, Repr

/-- A state's share of a drug's total: `weights[i] / s`. -/
def share (w s : ℚ) : ℚ := w / s

/-- Python's builtin `sum` on floats: a left fold of binary64 additions from 0. -/
def floatSum (l : List ℚ) : ℚ :=
  l.foldl (fun acc w => fl (acc + w)) 0

/-- The inner state loop of `generate_mock_state_sales`: for each state take the next
jitter draw, round the jittered allocation, take the next unit-price draw, truncate the
unit count, and emit the row. `share` is one double division; the drug total is an
integer that converts to a double exactly at these magnitudes; each multiplication and
the final division round to binary64. -/
def stateLoop (drug period : String) (total s : ℚ) :
    List (String × ℚ) → PyRandom → List SalesRow × PyRandom
  | [], g => ([], g)
  | (stName, w) :: rest, g =>
      let (j, g1) := uniform g 0.8 1.2
      let value := pyRound (fl (fl (total * fl (share w s)) * j))
      let (p, g2) := uniform g1 3500 9000
      let units := pyTrunc (fl ((value : ℚ) / p))
      let (tail, g3) := stateLoop drug period total s rest g2
      ({ state := stName, drug := drug, value_inr := value, units := units,
         period := period } :: tail, g3)

/-- The outer drug loop. `base_totals.get(drug, int(random.uniform(5e6, 5e8)))`
evaluates its default argument eagerly, so the draw is consumed for EVERY drug and only
then discarded when the drug is known; afterwards the 20 weights are drawn and the state
loop runs with their float sum. -/
def drugLoop (period : String) : List String → PyRandom → List SalesRow × PyRandom
  | [], g => ([], g)
  | drug :: rest, g =>
      let (dflt, g1) := uniform g 5000000 500000000
      let total : ℚ :=
        match dictGet base_totals drug with
        | some t => (t : ℚ)
        | none => ((pyTrunc dflt : ℤ) : ℚ)
      let (weights, g2) := drawList g1 0.5 1.8 20
      let (rows, g3) :=
        stateLoop drug period total (floatSum weights) (INDIA_STATES.zip weights) g2
      let (tail, g4) := drugLoop period rest g3
      (rows ++ tail, g4)

/-- `generate_mock_state_sales(drug_names, from_date, to_date, seed=42)`: the module
RNG state it would find is `gPrior`; the body begins with `random.seed(seed)`, which
discards it, so the rows depend only on the arguments. -/
def generate_mock_state_sales (gPrior : PyRandom) (drug_names : List String)
    (from_date to_date : String) (seed : ℕ) : List SalesRow × PyRandom :=
  let _ := gPrior
  let g := randomSeed seed
  drugLoop (from_date ++ "_to_" ++ to_date) drug_names g

/-- The dashboard call `generate_mock_state_sales(drugs, str(from_date), str(to_date))`
leaves the `seed` parameter at its declared default, 42. -/
def generate_mock_state_sales_default (g : PyRandom) (drug_names : List String)
    (from_date to_date : String) : List SalesRow × PyRandom :=
  generate_mock_state_sales g drug_names from_date to_date 42

/-- Shape invariant of extraction: the loop only ever writes the `prevalence` key, so
every other key of a gender's sub-dictionary stays absent. -/
def onlyPrevalence (s : SubRecord) : Prop :=
  s.diabetes_comorbidity = none ∧ s.hypertension_comorbidity = none ∧
    s.heart_disease_comorbidity = none ∧ s.age_distribution = none

theorem applyMatch_shape (r : GenderRecord) (m : String × String)
    (hm : onlyPrevalence r.male_obesity) (hf : onlyPrevalence r.female_obesity) :
    onlyPrevalence (applyMatch r m).male_obesity ∧
      onlyPrevalence (applyMatch r m).female_obesity := by
  unfold applyMatch
  repeat' split
  all_goals exact ⟨hm, hf⟩

theorem foldl_shape (ms : List (String × String)) :
    ∀ r : GenderRecord, onlyPrevalence r.male_obesity → onlyPrevalence r.female_obesity →
      onlyPrevalence (ms.foldl applyMatch r).male_obesity ∧
        onlyPrevalence (ms.foldl applyMatch r).female_obesity := by
  induction ms with
  | nil => exact fun r hm hf => ⟨hm, hf⟩
  | cons m rest ih =>
      intro r hm hf
      have h := applyMatch_shape r m hm hf
      exact ih (applyMatch r m) h.1 h.2

theorem extract_shape (ms : List (String × String)) :
    onlyPrevalence (extract ms).male_obesity ∧ onlyPrevalence (extract ms).female_obesity :=
  foldl_shape ms emptyGender ⟨rfl, rfl, rfl, rfl⟩ ⟨rfl, rfl, rfl, rfl⟩

theorem isEmptyDict_eq_isNone {s : SubRecord} (h : onlyPrevalence s) :
    s.isEmptyDict = s.prevalence.isNone := by
  obtain ⟨h1, h2, h3, h4⟩ := h
  simp [SubRecord.isEmptyDict, h1, h2, h3, h4]

theorem fillMale_full {s : SubRecord} (hp : s.prevalence.isSome = true) :
    (fillMale s).isFull = true := by
  simp [fillMale, SubRecord.isFull, hp]

theorem fillFemale_full {s : SubRecord} (hp : s.prevalence.isSome = true) :
    (fillFemale s).isFull = true := by
  simp [fillFemale, SubRecord.isFull, hp]

theorem complete_full {r : GenderRecord} (hm : onlyPrevalence r.male_obesity)
    (hf : onlyPrevalence r.female_obesity) :
    isCompleteRecord (complete r) = true := by
  unfold complete
  by_cases hc : (r.male_obesity.isEmptyDict || r.female_obesity.isEmptyDict) = true
  · rw [if_pos hc]; rfl
  · rw [if_neg hc]
    rw [Bool.or_eq_true, not_or] at hc
    have hc1 : r.male_obesity.isEmptyDict = false := by
      cases hb : r.male_obesity.isEmptyDict
      · rfl
      · exact absurd hb hc.1
    have hc2 : r.female_obesity.isEmptyDict = false := by
      cases hb : r.female_obesity.isEmptyDict
      · rfl
      · exact absurd hb hc.2
    rw [isEmptyDict_eq_isNone hm] at hc1
    rw [isEmptyDict_eq_isNone hf] at hc2
    have hpm : r.male_obesity.prevalence.isSome = true := by
      cases hop : r.male_obesity.prevalence
      · rw [hop] at hc1; exact absurd hc1 (by simp)
      · rfl
    have hpf : r.female_obesity.prevalence.isSome = true := by
      cases hop : r.female_obesity.prevalence
      · rw [hop] at hc2; exact absurd hc2 (by simp)
      · rfl
    show ((fillMale r.male_obesity).isFull && (fillFemale r.female_obesity).isFull) = true
    rw [fillMale_full hpm, fillFemale_full hpf]
    rfl

theorem refresh_gender_complete (f : FetchOutcome) :
    isCompleteRecord (refresh_gender f) = true := by
  cases f with
  | failure msg => exact complete_full ⟨rfl, rfl, rfl, rfl⟩ ⟨rfl, rfl, rfl, rfl⟩
  | success status ms =>
      by_cases h : status = 200
      · show isCompleteRecord (complete (if status = 200 then extract ms else emptyGender)) = true
        rw [if_pos h]
        exact complete_full (extract_shape ms).1 (extract_shape ms).2
      · show isCompleteRecord (complete (if status = 200 then extract ms else emptyGender)) = true
        rw [if_neg h]
        exact complete_full ⟨rfl, rfl, rfl, rfl⟩ ⟨rfl, rfl, rfl, rfl⟩

theorem dictGet_set_self {α : Type} (d : List (String × α)) (k : String) (v : α) :
    dictGet (dictSet d k v) k = some v := by
  simp [dictGet, dictSet]

/-- C1: on a cache miss the gender-prevalence resolution runs the refresh path; whatever
the fetch/extract step did — timeout, connection error, non-200 status, empty or odd
matches — the call returns a record (never raises) and that record has every required
field path of the topic schema populated. -/
theorem scrape_miss_returns_complete_record (s : CacheState) (now : ℚ) (f : FetchOutcome)
    (hmiss : is_cache_valid s now "gender_based_analysis" 60 = false) :
    (scrape_gender_based_prevalence s now f).1 = some (refresh_gender f) ∧
      isCompleteRecord (refresh_gender f) = true := by
  constructor
  · unfold scrape_gender_based_prevalence get_or_refresh
    rw [hmiss]
    simp
  · exact refresh_gender_complete f

theorem scrape_miss_returns_complete_record_case :
    (scrape_gender_based_prevalence emptyCache 0 (.failure "ReadTimeout")).1 =
        some (refresh_gender (.failure "ReadTimeout")) ∧
      isCompleteRecord (refresh_gender (.failure "ReadTimeout")) = true :=
  scrape_miss_returns_complete_record emptyCache 0 (.failure "ReadTimeout") (by decide)

/-- C2: for every match list the extraction pass can produce — including the empty one —
the fallback completion yields a record with every required field path of the gender
schema present, and completing the already-completed empty record changes nothing. -/
theorem complete_extract_always_full (ms : List (String × String)) :
    isCompleteRecord (complete (extract ms)) = true ∧
      complete (complete emptyGender) = complete emptyGender :=
  ⟨complete_full (extract_shape ms).1 (extract_shape ms).2, by decide⟩

/-- C7: a captured numeric value is accepted into an obesity-prevalence field exactly
when it lies strictly between 1 and 50; in particular 72 is rejected and 15.2 accepted. -/
theorem plausibility_iff_strict_range :
    (∀ s rate, pyDigitGate s = true → pyFloat s = some rate →
        ((extract [("male", s)]).male_obesity.prevalence = some rate ↔
          1 < rate ∧ rate < 50)) ∧
      (extract [("male", "72")]).male_obesity.prevalence = none ∧
      (extract [("male", "15.2")]).male_obesity.prevalence = some 15.2 := by
  refine ⟨?_, by decide, by decide⟩
  intro s rate hgate hparse
  show (applyMatch emptyGender ("male", s)).male_obesity.prevalence = some rate ↔
    1 < rate ∧ rate < 50
  unfold applyMatch
  simp only [hgate, if_true, hparse]
  by_cases hp : 1 < rate ∧ rate < 50
  · simp [hp]
  · simp [hp]
    intro he
    exact absurd he.symm (by simp [emptyGender, emptySub])

theorem plausibility_iff_strict_range_case :
    (extract [("male", "15.2")]).male_obesity.prevalence = some 15.2 :=
  (plausibility_iff_strict_range.1 "15.2" 15.2 (by decide) (by decide)).mpr (by decide)

/-- C8: with topic gender_based_analysis (TTL 60) and a fetch that fails with a timeout,
nothing is extracted and the returned record is exactly the documented static baseline:
male prevalence 12.8, female prevalence 15.2, with the full default comorbidity and
age-distribution sub-structures. -/
theorem timeout_yields_static_baseline :
    (scrape_gender_based_prevalence emptyCache 0 (.failure "ReadTimeout")).1 =
      some { male_obesity :=
               { prevalence := some 12.8, diabetes_comorbidity := some 18.5,
                 hypertension_comorbidity := some 24.8,
                 heart_disease_comorbidity := some 8.2,
                 age_distribution := some (8.5, 16.2, 21.4, 18.9) },
             female_obesity :=
               { prevalence := some 15.2, diabetes_comorbidity := some 16.8,
                 hypertension_comorbidity := some 22.1,
                 heart_disease_comorbidity := some 6.4,
                 age_distribution := some (11.2, 19.8, 24.1, 16.3) },
             gender_comorbidities := [], age_demographics := [],
             clinical_insights := [] } := by
  decide

/-- C3 counterexample: 10.5 and 41.5 are each accepted on their own for the male
prevalence field, but when both matches occur the extractor holds the LATER accepted
value 41.5, not the first one — each accepted match overwrites the field. -/
theorem extract_keeps_last_not_first :
    (extract [("male", "10.5")]).male_obesity.prevalence = some 10.5 ∧
      (extract [("male", "41.5")]).male_obesity.prevalence = some 41.5 ∧
      (extract [("male", "10.5"), ("male", "41.5")]).male_obesity.prevalence = some 41.5 ∧
      (10.5 : ℚ) ≠ 41.5 := by
  refine ⟨by decide, by decide, by decide, by decide⟩

/-- C3 amended: the extraction loop assigns on every accepted match, so the LAST
accepted value per field wins: whatever earlier matches produced, an accepted final
match for a gender leaves its parsed value in that gender's prevalence field. -/
theorem extract_last_accepted_wins (ms : List (String × String)) (s : String) (rate : ℚ)
    (hgate : pyDigitGate s = true) (hparse : pyFloat s = some rate)
    (h1 : 1 < rate) (h2 : rate < 50) :
    (extract (ms ++ [("male", s)])).male_obesity.prevalence = some rate ∧
      (extract (ms ++ [("female", s)])).female_obesity.prevalence = some rate := by
  constructor
  · unfold extract
    rw [List.foldl_append]
    show (applyMatch (extract ms) ("male", s)).male_obesity.prevalence = some rate
    unfold applyMatch
    simp [hgate, hparse, h1, h2]
  · unfold extract
    rw [List.foldl_append]
    show (applyMatch (extract ms) ("female", s)).female_obesity.prevalence = some rate
    unfold applyMatch
    simp [hgate, hparse, h1, h2]

theorem extract_last_accepted_wins_case :
    (extract ([("male", "10.5")] ++ [("male", "41.5")])).male_obesity.prevalence =
      some 41.5 :=
  (extract_last_accepted_wins [("male", "10.5")] "41.5" 41.5 (by decide) (by decide)
    (by decide) (by decide)).1

/-- C4 counterexample: a partial record with an extracted male prevalence 10.5 and an
empty female dictionary loses the extracted value — completion replaces both
sub-dictionaries wholesale, installing the default 12.8 over the present 10.5. -/
theorem complete_overwrites_extracted_value :
    (extract [("male", "10.5")]).male_obesity.prevalence = some 10.5 ∧
      (complete (extract [("male", "10.5")])).male_obesity.prevalence = some 12.8 ∧
      (10.5 : ℚ) ≠ 12.8 := by
  refine ⟨by decide, by decide, by decide⟩

/-- C4 amended: only when BOTH gender dictionaries are nonempty does completion insert
defaults at exactly the absent field paths and keep every present value; if either
dictionary is empty, both are replaced wholesale by the full default sub-structures,
discarding any extracted values. -/
theorem complete_default_fill_behavior (r : GenderRecord) :
    (r.male_obesity.isEmptyDict = false → r.female_obesity.isEmptyDict = false →
      (complete r).male_obesity.prevalence = r.male_obesity.prevalence ∧
      (complete r).male_obesity.diabetes_comorbidity =
        some (r.male_obesity.diabetes_comorbidity.getD 18.5) ∧
      (complete r).male_obesity.hypertension_comorbidity =
        some (r.male_obesity.hypertension_comorbidity.getD 24.8) ∧
      (complete r).male_obesity.heart_disease_comorbidity =
        some (r.male_obesity.heart_disease_comorbidity.getD 8.2) ∧
      (complete r).male_obesity.age_distribution =
        some (r.male_obesity.age_distribution.getD (8.5, 16.2, 21.4, 18.9)) ∧
      (complete r).female_obesity.prevalence = r.female_obesity.prevalence ∧
      (complete r).female_obesity.diabetes_comorbidity =
        some (r.female_obesity.diabetes_comorbidity.getD 16.8) ∧
      (complete r).female_obesity.hypertension_comorbidity =
        some (r.female_obesity.hypertension_comorbidity.getD 22.1) ∧
      (complete r).female_obesity.heart_disease_comorbidity =
        some (r.female_obesity.heart_disease_comorbidity.getD 6.4) ∧
      (complete r).female_obesity.age_distribution =
        some (r.female_obesity.age_distribution.getD (11.2, 19.8, 24.1, 16.3))) ∧
    ((r.male_obesity.isEmptyDict = true ∨ r.female_obesity.isEmptyDict = true) →
      (complete r).male_obesity = defaultMaleSub ∧
        (complete r).female_obesity = defaultFemaleSub) := by
  constructor
  · intro hm hf
    have hc : (r.male_obesity.isEmptyDict || r.female_obesity.isEmptyDict) = false := by
      rw [hm, hf]; rfl
    unfold complete
    rw [hc]
    simp [fillMale, fillFemale]
  · intro h
    have hc : (r.male_obesity.isEmptyDict || r.female_obesity.isEmptyDict) = true := by
      rcases h with h | h <;> simp [h]
    unfold complete
    rw [hc]
    exact ⟨rfl, rfl⟩

theorem complete_default_fill_behavior_case :
    (complete (extract [("male", "10.5"), ("female", "20.5")])).male_obesity.prevalence =
      (extract [("male", "10.5"), ("female", "20.5")]).male_obesity.prevalence :=
  ((complete_default_fill_behavior (extract [("male", "10.5"), ("female", "20.5")])).1
    (by decide) (by decide)).1

/-- C5: when the topic has a timestamped entry with age under its TTL, the lookup
returns the stored record with the cache state untouched and zero refreshes; and after
a cache-miss refresh, a second lookup within the TTL window returns the record the first
call stored, again with zero refreshes — two lookups, exactly one refresh. -/
theorem cache_hit_no_refresh (s : CacheState) (now now2 produced : ℚ) (key : String)
    (ttl : ℚ) (stored r r2 : GenderRecord) :
    (dictGet s.scrape_timestamps key = some produced → (now - produced) / 60 < ttl →
      dictGet s.live_scraped_cache key = some stored →
      get_or_refresh s now key ttl r = (some stored, s, 0)) ∧
    (is_cache_valid s now key ttl = false → 0 ≤ now2 - now → (now2 - now) / 60 < ttl →
      (get_or_refresh s now key ttl r).2.2 = 1 ∧
        get_or_refresh (get_or_refresh s now key ttl r).2.1 now2 key ttl r2 =
          (some r, (get_or_refresh s now key ttl r).2.1, 0)) := by
  constructor
  · intro hts hage hstored
    have hv : is_cache_valid s now key ttl = true := by
      unfold is_cache_valid
      rw [hts]
      exact decide_eq_true hage
    unfold get_or_refresh
    rw [hv, hstored]
    rfl
  · intro hmiss hpos hage
    have hstate : (get_or_refresh s now key ttl r).2.1 = cache_data s now key r := by
      unfold get_or_refresh
      rw [hmiss]
      rfl
    have hcount : (get_or_refresh s now key ttl r).2.2 = 1 := by
      unfold get_or_refresh
      rw [hmiss]
      rfl
    refine ⟨hcount, ?_⟩
    rw [hstate]
    have hv2 : is_cache_valid (cache_data s now key r) now2 key ttl = true := by
      unfold is_cache_valid
      rw [show (cache_data s now key r).scrape_timestamps =
        dictSet s.scrape_timestamps key now from rfl]
      rw [dictGet_set_self]
      exact decide_eq_true hage
    unfold get_or_refresh
    rw [hv2]
    rw [show (cache_data s now key r).live_scraped_cache =
      dictSet s.live_scraped_cache key r from rfl]
    rw [dictGet_set_self]
    rfl

theorem cache_hit_no_refresh_case :
    (get_or_refresh emptyCache 0 "gender_based_analysis" 60 emptyGender).2.2 = 1 ∧
      get_or_refresh (get_or_refresh emptyCache 0 "gender_based_analysis" 60
            emptyGender).2.1 1800 "gender_based_analysis" 60 emptyGender =
        (some emptyGender,
          (get_or_refresh emptyCache 0 "gender_based_analysis" 60 emptyGender).2.1, 0) :=
  (cache_hit_no_refresh emptyCache 0 1800 0 "gender_based_analysis" 60 emptyGender
    emptyGender emptyGender).2 (by decide) (by decide) (by decide)

/-- C6: once an entry's age reaches its TTL — freshness being the strict comparison
age < ttl, so age = ttl is already stale — the next lookup is a miss: it refreshes
exactly once, stores the new record, and stamps produced_at with the current time. -/
theorem cache_expiry_single_refresh (s : CacheState) (now produced : ℚ) (key : String)
    (ttl : ℚ) (r : GenderRecord)
    (hts : dictGet s.scrape_timestamps key = some produced)
    (hexp : ttl ≤ (now - produced) / 60) :
    is_cache_valid s now key ttl = false ∧
      get_or_refresh s now key ttl r = (some r, cache_data s now key r, 1) ∧
      dictGet (cache_data s now key r).scrape_timestamps key = some now ∧
      dictGet (cache_data s now key r).live_scraped_cache key = some r := by
  have hv : is_cache_valid s now key ttl = false := by
    unfold is_cache_valid
    rw [hts]
    exact decide_eq_false (not_lt.mpr hexp)
  refine ⟨hv, ?_, ?_, ?_⟩
  · unfold get_or_refresh
    rw [hv]
    rfl
  · exact dictGet_set_self s.scrape_timestamps key now
  · exact dictGet_set_self s.live_scraped_cache key r

theorem cache_expiry_single_refresh_case :
    is_cache_valid (cache_data emptyCache 0 "geographic_segmentation" emptyGender) 5400
        "geographic_segmentation" 90 = false ∧
      get_or_refresh (cache_data emptyCache 0 "geographic_segmentation" emptyGender) 5400
          "geographic_segmentation" 90 emptyGender =
        (some emptyGender,
          cache_data (cache_data emptyCache 0 "geographic_segmentation" emptyGender) 5400
            "geographic_segmentation" emptyGender, 1) ∧
      dictGet (cache_data (cache_data emptyCache 0 "geographic_segmentation" emptyGender)
          5400 "geographic_segmentation" emptyGender).scrape_timestamps
          "geographic_segmentation" = some 5400 ∧
      dictGet (cache_data (cache_data emptyCache 0 "geographic_segmentation" emptyGender)
          5400 "geographic_segmentation" emptyGender).live_scraped_cache
          "geographic_segmentation" = some emptyGender :=
  cache_expiry_single_refresh (cache_data emptyCache 0 "geographic_segmentation"
    emptyGender) 5400 0 "geographic_segmentation" 90 emptyGender (by decide) (by decide)

set_option maxRecDepth 4000 in
set_option maxHeartbeats 4000000 in
/-- C9 counterexample: for the drug Wegovy, whose `base_totals` entry is 7000000, the
seed-42 run — computed through the bit-exact MT19937 stream and binary64 arithmetic —
produces per-state `value_inr` amounts summing to 6890865, not to the drug's total: the
per-state jitter factor in [0.8, 1.2] and the rounding break the sum. -/
theorem sales_sum_ne_total :
    dictGet base_totals "Wegovy" = some 7000000 ∧
      (((generate_mock_state_sales ⟨[], 624⟩ ["Wegovy"] "2025-01-01" "2025-08-31" 42).1.map
          (fun row => row.value_inr)).sum = 6890865) ∧
      (6890865 : ℤ) ≠ 7000000 := by
  refine ⟨by decide, by decide, by decide⟩

/-- C9 amended: the allocation shares weights[i]/s over the states sum to 1 — so before
the per-state jitter draw and the rounding, the allocated amounts total * share sum
exactly to the drug's total; the generated `value_inr` applies the jitter and rounds, so
the summed rows can deviate from the total. -/
theorem sales_shares_sum_to_total (total : ℚ) (weights : List ℚ)
    (hpos : ∀ w ∈ weights, 0 < w) (hne : weights ≠ []) :
    (weights.map (fun w => total * share w weights.sum)).sum = total := by
  have hs : 0 < weights.sum := List.sum_pos weights hpos hne
  have hs0 : weights.sum ≠ 0 := ne_of_gt hs
  have hfun : (fun w => total * share w weights.sum) =
      fun w => (total / weights.sum) * id w := by
    funext w
    simp only [share, id]
    ring
  rw [hfun, List.sum_map_mul_left, List.map_id]
  exact div_mul_cancel₀ total hs0

theorem sales_shares_sum_to_total_case :
    (([1, 1] : List ℚ).map (fun w => (7000000 : ℚ) * share w ([1, 1] : List ℚ).sum)).sum =
      7000000 :=
  sales_shares_sum_to_total 7000000 [1, 1] (by norm_num) (by simp)

/-- C10: the mock state-sales generator is deterministic: its body starts with
`random.seed(seed)` with the default seed 42, so the rows it produces do not depend on
the module RNG state it finds — and in particular a second call with the same drug list
and dates, run on the state the first call left behind, yields the identical row set. -/
theorem sales_generator_deterministic (g1 g2 : PyRandom) (drug_names : List String)
    (from_date to_date : String) :
    (generate_mock_state_sales_default g1 drug_names from_date to_date).1 =
        (generate_mock_state_sales_default g2 drug_names from_date to_date).1 ∧
      (generate_mock_state_sales_default
          (generate_mock_state_sales_default g1 drug_names from_date to_date).2
          drug_names from_date to_date).1 =
        (generate_mock_state_sales_default g1 drug_names from_date to_date).1 :=
  ⟨rfl, rfl⟩

end NovoDash
